import Mathlib

/-!
Verification of the DAASR adaptive rate-limiting engine.

This file gives a shallow embedding, in Lean 4, of the algorithmic core of the
repository:

* `DAASR` — the adaptive limit calculator of
  `src/middleware/daasr.js` (class `DAASRAlgorithm`): traffic multiplier,
  burst factor, reputation factor, penalty factor, window size, and the final
  clamped dynamic limit.
* `TrafficMon` — the sliding-window traffic monitor of
  `src/services/trafficMonitor.js` (class `TrafficMonitor`): event recording,
  windowed statistics, and health status.
* `AlertSys` — the rule-based alert evaluator of the alerting module
  (class `AlertingSystem`): rule evaluation, alert lifecycle, suppression,
  notification dispatch, and history cleanup.

JavaScript numbers are modelled as `ℚ` (all constants appearing in the source
are exactly representable); timestamps and durations are `ℤ` milliseconds;
`Math.round` is `jsRound` (round half toward positive infinity, as in JS).
Maps keyed by strings are association lists with JS `Map.set` semantics
(in-place update preserving insertion order, append when the key is new).
-/

/-- JavaScript `Math.round`: rounds half-way cases toward positive infinity. -/
def jsRound (q : ℚ) : ℤ := ⌊q + 1/2⌋

namespace DAASR

/-- The traffic-statistics snapshot produced by `TrafficMonitor.calculateStats`
and consumed by the DAASR algorithm (`this.trafficStats` in the source). -/
structure TrafficStats where
  requestsPerSecond : ℚ
  requestsPerMinute : ℚ
  averageResponseTime : ℚ
  errorRate : ℚ
  totalRequests : ℕ
  totalErrors : ℕ
  peakRequestsPerSecond : ℚ
  peakResponseTime : ℚ
  lastUpdated : ℤ
  deriving DecidableEq

/-- `DAASRAlgorithm.calculateTrafficMultiplier` (src/middleware/daasr.js):
tiered early-return checks — RPS tiers, then error-rate tiers, then latency
tiers; the first matching check determines the result. -/
def calculateTrafficMultiplier (trafficStats : TrafficStats) : ℚ :=
  if trafficStats.requestsPerSecond > 1000 then 0.5
  else if trafficStats.requestsPerSecond > 500 then 0.7
  else if trafficStats.requestsPerSecond > 100 then 0.9
  else if trafficStats.errorRate > 0.1 then 0.6
  else if trafficStats.errorRate > 0.05 then 0.8
  else if trafficStats.averageResponseTime > 1000 then 0.7
  else if trafficStats.averageResponseTime > 500 then 0.9
  else 1.0

/-- `DAASRAlgorithm.calculateWindowSize`: tiered window size by RPS. -/
def calculateWindowSize (trafficStats : TrafficStats) : ℤ :=
  if trafficStats.requestsPerSecond > 100 then 60000
  else if trafficStats.requestsPerSecond > 10 then 5 * 60000
  else 15 * 60000

/-- One entry of a user's recorded request list (the object pushed by
`calculateBurstFactor`: `{timestamp, url, method}`). -/
structure ReqRecord where
  timestamp : ℤ
  url : String
  method : String
  deriving DecidableEq

/-- A per-identifier history entry of `this.userPatterns`.  The `offenses`
field is absent (`undefined`) until `handleRateLimit` first records an
offense, so it is an `Option`; JS treats an absent field as falsy and a
present (possibly empty) array as truthy. -/
structure UserHistory where
  requests : List ReqRecord
  burstScore : ℚ
  offenses : Option (List ℤ)
  deriving DecidableEq

/-- `this.userPatterns`: a JS `Map` from identifier to `UserHistory`,
modelled as an insertion-ordered association list. -/
abbrev Patterns := List (String × UserHistory)

/-- JS `Map.get`. -/
def patternsGet (k : String) : Patterns → Option UserHistory
  | [] => none
  | (k', v) :: rest => if k' = k then some v else patternsGet k rest

/-- JS `Map.set`: replaces the value in place when the key exists (keeping
insertion order), appends otherwise. -/
def patternsSet (k : String) (v : UserHistory) : Patterns → Patterns
  | [] => [(k, v)]
  | (k', v') :: rest =>
      if k' = k then (k, v) :: rest else (k', v') :: patternsSet k v rest

/-- The request metadata fields that `calculateBurstFactor` records. -/
structure ReqData where
  url : String
  method : String
  deriving DecidableEq

/-- `DAASRAlgorithm.calculateBurstFactor`: burst score from the identifier's
last-minute request count, with the side effect of appending the current
request (history capped at the 100 most recent entries).  Returns the score
and the updated `userPatterns` map. -/
def calculateBurstFactor (identifier : String) (requestData : ReqData)
    (now : ℤ) (userPatterns : Patterns) : ℚ × Patterns :=
  let userHistory := (patternsGet identifier userPatterns).getD
    { requests := [], burstScore := 1.0, offenses := none }
  let recentRequests := userHistory.requests.filter
    (fun r => now - r.timestamp < 60000)
  let burstScore := max 0.5 (1 - (recentRequests.length : ℚ) / 100)
  let requests1 := userHistory.requests ++
    [{ timestamp := now, url := requestData.url, method := requestData.method }]
  let requests2 :=
    if requests1.length > 100 then requests1.drop (requests1.length - 100)
    else requests1
  (burstScore,
   patternsSet identifier { userHistory with requests := requests2 } userPatterns)

/-- `DAASRAlgorithm.calculateResourceFactor`: placeholder, always `1.0`. -/
def calculateResourceFactor : ℚ := 1.0

/-- `DAASRAlgorithm.calculateUserReputation`: `1.0` when the identifier has no
recorded profile; otherwise `1.2` when the profile holds fewer than 10
requests, else `1.0`.  (The source also computes an unused last-hour request
count, which has no effect on the result.) -/
def calculateUserReputation (identifier : String)
    (userPatterns : Patterns) : ℚ :=
  match patternsGet identifier userPatterns with
  | none => 1.0
  | some userHistory =>
      if userHistory.requests.length < 10 then 1.2 else 1.0

/-- `DAASRAlgorithm.calculatePenaltyFactor`: prunes offenses older than 15
minutes (writing the pruned list back into the profile) and applies a 10%
reduction per remaining offense, floored at 0.5.  A missing profile or an
absent `offenses` field yields `1.0` with no state change. -/
def calculatePenaltyFactor (identifier : String) (now : ℤ)
    (userPatterns : Patterns) : ℚ × Patterns :=
  match patternsGet identifier userPatterns with
  | none => (1.0, userPatterns)
  | some userHistory =>
      match userHistory.offenses with
      | none => (1.0, userPatterns)
      | some offenses =>
          let offenses1 := offenses.filter (fun t => now - t < 15 * 60 * 1000)
          let penalty := max 0.5 (1.0 - (offenses1.length : ℚ) * 0.1)
          (penalty,
           patternsSet identifier { userHistory with offenses := some offenses1 }
             userPatterns)

/-- The configuration fields consumed by `calculateDynamicLimit`
(`baseConfig.baseRateLimit`, `minRateLimit`, `maxRateLimit`; integers per the
Joi schema of `src/config/default.js`). -/
structure BaseConfig where
  baseRateLimit : ℤ
  minRateLimit : ℤ
  maxRateLimit : ℤ
  deriving DecidableEq

/-- The quota returned by `calculateDynamicLimit` (the fields with algorithmic
content: `windowMs` and `max`). -/
structure LimitResult where
  windowMs : ℤ
  max : ℤ
  deriving DecidableEq

/-- `DAASRAlgorithm.calculateDynamicLimit`: multiplies the base limit by the
traffic, burst, resource, reputation and penalty factors, rounds, and clamps
into `[minRateLimit, maxRateLimit]`.  The factors are computed in source
order: the burst factor records the current request before the reputation and
penalty factors read the profile.  Returns the quota and the updated
`userPatterns`. -/
def calculateDynamicLimit (identifier : String) (requestData : ReqData)
    (now : ℤ) (trafficStats : TrafficStats) (baseConfig : BaseConfig)
    (userPatterns : Patterns) : LimitResult × Patterns :=
  let trafficMultiplier := calculateTrafficMultiplier trafficStats
  let bf := calculateBurstFactor identifier requestData now userPatterns
  let reputationFactor := calculateUserReputation identifier bf.2
  let pf := calculatePenaltyFactor identifier now bf.2
  let dynamicLimit := max baseConfig.minRateLimit
    (min baseConfig.maxRateLimit
      (jsRound ((baseConfig.baseRateLimit : ℚ) * trafficMultiplier * bf.1 *
        calculateResourceFactor * reputationFactor * pf.1)))
  ({ windowMs := calculateWindowSize trafficStats, max := dynamicLimit }, pf.2)

/-- JS `Map.get` after `Map.set` at the same key finds the stored value. -/
theorem patternsGet_patternsSet_self (k : String) (v : UserHistory) :
    ∀ m : Patterns, patternsGet k (patternsSet k v m) = some v := by
  intro m
  induction m with
  | nil => simp [patternsGet, patternsSet]
  | cons p rest ih =>
      by_cases h : p.1 = k
      · simp [patternsSet, patternsGet, h]
      · simpa [patternsSet, patternsGet, h] using ih

/-- On a brand-new identifier (no stored profile), the burst factor is `1.0`
and the identifier's profile is created holding exactly the current request
(and no `offenses` field). -/
theorem calculateBurstFactor_fresh (identifier : String) (requestData : ReqData)
    (now : ℤ) (userPatterns : Patterns)
    (h : patternsGet identifier userPatterns = none) :
    calculateBurstFactor identifier requestData now userPatterns =
      (1, patternsSet identifier
        { requests := [{ timestamp := now, url := requestData.url,
                         method := requestData.method }],
          burstScore := 1.0, offenses := none } userPatterns) := by
  simp [calculateBurstFactor, h]
  norm_num

end DAASR

/-- Claim C1: for every traffic snapshot with `requestsPerSecond > 1000` the
traffic multiplier is `0.5`, overriding any simultaneously-true error-rate or
latency condition; and for a snapshot with `requestsPerSecond ≤ 100`,
`errorRate > 0.10` and `averageResponseTime > 1000` the result is `0.6` (the
first matching check in the order RPS tiers, error-rate tiers, latency tiers
determines the result; groups are not combined). -/
theorem daasr_traffic_multiplier_precedence :
    (∀ s : DAASR.TrafficStats, s.requestsPerSecond > 1000 →
      DAASR.calculateTrafficMultiplier s = 0.5) ∧
    (∀ s : DAASR.TrafficStats, s.requestsPerSecond ≤ 100 → s.errorRate > 0.1 →
      s.averageResponseTime > 1000 →
      DAASR.calculateTrafficMultiplier s = 0.6) := by
  constructor
  · intro s h
    simp only [DAASR.calculateTrafficMultiplier, if_pos h]
  · intro s h1 h2 h3
    have n1 : ¬ s.requestsPerSecond > 1000 := by linarith
    have n2 : ¬ s.requestsPerSecond > 500 := by linarith
    have n3 : ¬ s.requestsPerSecond > 100 := by linarith
    simp only [DAASR.calculateTrafficMultiplier, if_neg n1, if_neg n2, if_neg n3, if_pos h2]

/-- Witness for C1: both branches evaluated at concrete snapshots. -/
theorem daasr_traffic_multiplier_precedence_witness :
    DAASR.calculateTrafficMultiplier
      { requestsPerSecond := 1500, requestsPerMinute := 90000,
        averageResponseTime := 2000, errorRate := 0.5, totalRequests := 1,
        totalErrors := 1, peakRequestsPerSecond := 1500,
        peakResponseTime := 2000, lastUpdated := 0 } = 0.5 ∧
    DAASR.calculateTrafficMultiplier
      { requestsPerSecond := 50, requestsPerMinute := 3000,
        averageResponseTime := 1500, errorRate := 0.2, totalRequests := 1,
        totalErrors := 1, peakRequestsPerSecond := 50,
        peakResponseTime := 1500, lastUpdated := 0 } = 0.6 := by
  constructor
  · exact daasr_traffic_multiplier_precedence.1 _ (by norm_num)
  · exact daasr_traffic_multiplier_precedence.2 _ (by norm_num) (by norm_num) (by norm_num)

/-- Claim C2 (amended reading of "for every input": a configuration with
`minRateLimit ≤ maxRateLimit`): for a brand-new identifier, observed traffic
of 1500 requests/sec and 1% error rate, and configuration `baseLimit=100,
minLimit=10, maxLimit=1000`, the computed quota has `max = 60`
(`clamp(round(100 × 0.5 × 1.0 × 1 × 1.2 × 1.0), 10, 1000)`); and for every
input whose configuration satisfies `minRateLimit ≤ maxRateLimit`, the
returned `max` lies within `[minRateLimit, maxRateLimit]`. -/
theorem daasr_dynamic_limit_scenario_and_clamp :
    (∀ (identifier : String) (requestData : DAASR.ReqData) (now : ℤ)
       (stats : DAASR.TrafficStats) (userPatterns : DAASR.Patterns),
       DAASR.patternsGet identifier userPatterns = none →
       stats.requestsPerSecond = 1500 →
       stats.errorRate = 0.01 →
       (DAASR.calculateDynamicLimit identifier requestData now stats
         { baseRateLimit := 100, minRateLimit := 10, maxRateLimit := 1000 }
         userPatterns).1.max = 60) ∧
    (∀ (identifier : String) (requestData : DAASR.ReqData) (now : ℤ)
       (stats : DAASR.TrafficStats) (cfg : DAASR.BaseConfig)
       (userPatterns : DAASR.Patterns),
       cfg.minRateLimit ≤ cfg.maxRateLimit →
       cfg.minRateLimit ≤ (DAASR.calculateDynamicLimit identifier requestData
         now stats cfg userPatterns).1.max ∧
       (DAASR.calculateDynamicLimit identifier requestData now stats cfg
         userPatterns).1.max ≤ cfg.maxRateLimit) := by
  constructor
  · intro identifier requestData now stats userPatterns hget hrps herr
    have htm : DAASR.calculateTrafficMultiplier stats = 0.5 :=
      daasr_traffic_multiplier_precedence.1 stats (by rw [hrps]; norm_num)
    simp only [DAASR.calculateDynamicLimit,
      DAASR.calculateBurstFactor_fresh identifier requestData now userPatterns hget,
      DAASR.calculateUserReputation, DAASR.calculatePenaltyFactor,
      DAASR.calculateResourceFactor, DAASR.patternsGet_patternsSet_self, htm]
    norm_num [jsRound]
  · intro identifier requestData now stats cfg userPatterns h
    simp only [DAASR.calculateDynamicLimit]
    constructor
    · exact le_max_left _ _
    · exact max_le h (min_le_left _ _)

/-- Witness for C2: the scenario and the clamp bounds at concrete inputs. -/
theorem daasr_dynamic_limit_scenario_and_clamp_witness :
    (DAASR.calculateDynamicLimit "203.0.113.7" { url := "/api", method := "GET" }
      1000 { requestsPerSecond := 1500, requestsPerMinute := 90000,
             averageResponseTime := 120, errorRate := 0.01, totalRequests := 90000,
             totalErrors := 900, peakRequestsPerSecond := 1500,
             peakResponseTime := 400, lastUpdated := 1000 }
      { baseRateLimit := 100, minRateLimit := 10, maxRateLimit := 1000 }
      []).1.max = 60 ∧
    (10 : ℤ) ≤ (DAASR.calculateDynamicLimit "203.0.113.7"
      { url := "/api", method := "GET" }
      1000 { requestsPerSecond := 1500, requestsPerMinute := 90000,
             averageResponseTime := 120, errorRate := 0.01, totalRequests := 90000,
             totalErrors := 900, peakRequestsPerSecond := 1500,
             peakResponseTime := 400, lastUpdated := 1000 }
      { baseRateLimit := 100, minRateLimit := 10, maxRateLimit := 1000 }
      []).1.max := by
  refine ⟨daasr_dynamic_limit_scenario_and_clamp.1 _ _ _ _ _ rfl rfl rfl, ?_⟩
  exact (daasr_dynamic_limit_scenario_and_clamp.2 _ _ _ _ _ _ (by norm_num)).1

/-- Claim C8 counterexample: an identifier with zero recorded requests (no
profile yet) gets reputation factor `1.0`, not the `1.2` the claim asserts
for every identifier with fewer than 10 recorded requests. -/
theorem daasr_reputation_no_profile_counterexample :
    DAASR.calculateUserReputation "198.51.100.9" [] = 1.0 ∧
    (1.0 : ℚ) ≠ 1.2 := by
  constructor
  · rfl
  · norm_num

/-- Claim C8 (amended): for every identifier with a recorded profile holding
fewer than 10 requests the reputation factor is `1.2`; with 10 or more
requests it is `1.0`; and for an identifier with no recorded profile (zero
recorded requests) it is `1.0`, not `1.2`. -/
theorem daasr_reputation_factor :
    (∀ (identifier : String) (userPatterns : DAASR.Patterns)
       (h : DAASR.UserHistory),
       DAASR.patternsGet identifier userPatterns = some h →
       h.requests.length < 10 →
       DAASR.calculateUserReputation identifier userPatterns = 1.2) ∧
    (∀ (identifier : String) (userPatterns : DAASR.Patterns)
       (h : DAASR.UserHistory),
       DAASR.patternsGet identifier userPatterns = some h →
       10 ≤ h.requests.length →
       DAASR.calculateUserReputation identifier userPatterns = 1.0) ∧
    (∀ (identifier : String) (userPatterns : DAASR.Patterns),
       DAASR.patternsGet identifier userPatterns = none →
       DAASR.calculateUserReputation identifier userPatterns = 1.0) := by
  refine ⟨?_, ?_, ?_⟩
  · intro identifier userPatterns h hget hlt
    simp [DAASR.calculateUserReputation, hget, hlt]
  · intro identifier userPatterns h hget hge
    simp [DAASR.calculateUserReputation, hget, Nat.not_lt.mpr hge]
  · intro identifier userPatterns hget
    simp [DAASR.calculateUserReputation, hget]

/-- Witness for C8's amended theorem: all three cases at concrete profiles. -/
theorem daasr_reputation_factor_witness :
    DAASR.calculateUserReputation "a"
      [("a", { requests := [{ timestamp := 0, url := "/", method := "GET" }],
               burstScore := 1.0, offenses := none })] = 1.2 ∧
    DAASR.calculateUserReputation "b"
      [("b", { requests := List.replicate 10
                 { timestamp := 0, url := "/", method := "GET" },
               burstScore := 1.0, offenses := none })] = 1.0 ∧
    DAASR.calculateUserReputation "c" [] = 1.0 := by
  refine ⟨daasr_reputation_factor.1 "a" _ _ rfl (by decide),
          daasr_reputation_factor.2.1 "b" _ _ rfl (by decide),
          daasr_reputation_factor.2.2 "c" [] rfl⟩

namespace TrafficMon

/-- A request event of `TrafficMonitor.requestHistory`
(`{timestamp, ip, method, url, userAgent}`). -/
structure ReqEvent where
  timestamp : ℤ
  ip : String
  method : String
  url : String
  userAgent : String
  deriving DecidableEq

/-- A response event of `TrafficMonitor.responseTimeHistory`
(`{timestamp, responseTime, statusCode, contentLength}`). -/
structure RespEvent where
  timestamp : ℤ
  responseTime : ℚ
  statusCode : ℤ
  contentLength : ℤ
  deriving DecidableEq

/-- An error event of `TrafficMonitor.errorHistory`
(`{timestamp, statusCode, message}`). -/
structure ErrEvent where
  timestamp : ℤ
  statusCode : ℤ
  message : String
  deriving DecidableEq

/-- The full state of a `TrafficMonitor` instance: the three event logs and
the running `trafficStats` record. -/
structure MonState where
  requestHistory : List ReqEvent
  responseTimeHistory : List RespEvent
  errorHistory : List ErrEvent
  trafficStats : DAASR.TrafficStats
  deriving DecidableEq

/-- The monitor's initial state (constructor of `TrafficMonitor`): empty logs,
all statistics zero. -/
def initialState (t0 : ℤ) : MonState :=
  { requestHistory := [], responseTimeHistory := [], errorHistory := [],
    trafficStats :=
      { requestsPerSecond := 0, requestsPerMinute := 0,
        averageResponseTime := 0, errorRate := 0, totalRequests := 0,
        totalErrors := 0, peakRequestsPerSecond := 0, peakResponseTime := 0,
        lastUpdated := t0 } }

/-- `TrafficMonitor.recordRequest`: appends the event, increments
`totalRequests`, and prunes request events older than one hour. -/
def recordRequest (now : ℤ) (ip method url userAgent : String)
    (st : MonState) : MonState :=
  let history := st.requestHistory ++
    [{ timestamp := now, ip := ip, method := method, url := url,
       userAgent := userAgent }]
  { st with
    requestHistory := history.filter (fun r => r.timestamp > now - 3600000),
    trafficStats :=
      { st.trafficStats with totalRequests := st.trafficStats.totalRequests + 1 } }

/-- `TrafficMonitor.recordResponse`: appends the response event; when
`statusCode ≥ 400` also appends an error event and increments `totalErrors`;
prunes both logs to the last hour. -/
def recordResponse (now : ℤ) (responseTime : ℚ) (statusCode : ℤ)
    (contentLength : ℤ) (message : String) (st : MonState) : MonState :=
  let responses := st.responseTimeHistory ++
    [{ timestamp := now, responseTime := responseTime, statusCode := statusCode,
       contentLength := contentLength }]
  let errors :=
    if statusCode ≥ 400 then
      st.errorHistory ++
        [{ timestamp := now, statusCode := statusCode, message := message }]
    else st.errorHistory
  { st with
    responseTimeHistory := responses.filter (fun r => r.timestamp > now - 3600000),
    errorHistory := errors.filter (fun e => e.timestamp > now - 3600000),
    trafficStats :=
      { st.trafficStats with
        totalErrors :=
          if statusCode ≥ 400 then st.trafficStats.totalErrors + 1
          else st.trafficStats.totalErrors } }

/-- JS `Math.max(...list)` over a non-empty list (`0` on the empty list,
which the source never reaches because of its length guard). -/
def listMax : List ℚ → ℚ
  | [] => 0
  | x :: xs => xs.foldl max x

/-- The request events of the last-60-seconds window used by
`calculateStats`. -/
def windowRequests (now : ℤ) (st : MonState) : List ReqEvent :=
  st.requestHistory.filter (fun r => r.timestamp > now - 60000)

/-- The error events of the last-60-seconds window used by
`calculateStats`. -/
def windowErrors (now : ℤ) (st : MonState) : List ErrEvent :=
  st.errorHistory.filter (fun e => e.timestamp > now - 60000)

/-- `TrafficMonitor.calculateStats`: recomputes `trafficStats` from the
last-60-seconds slice of the logs.  `averageResponseTime`/`peakResponseTime`
update only when the window holds at least one response, and `errorRate`
updates only when it holds at least one request (otherwise the previous
value is retained). -/
def calculateStats (now : ℤ) (st : MonState) : MonState :=
  let recentRequests := windowRequests now st
  let s1 := { st.trafficStats with
    requestsPerMinute := (recentRequests.length : ℚ),
    requestsPerSecond := ((jsRound ((recentRequests.length : ℚ) / 60) : ℤ) : ℚ) }
  let recentResponses := st.responseTimeHistory.filter
    (fun r => r.timestamp > now - 60000)
  let s2 :=
    if recentResponses.length > 0 then
      { s1 with
        averageResponseTime :=
          ((jsRound ((recentResponses.map (·.responseTime)).sum /
            (recentResponses.length : ℚ)) : ℤ) : ℚ),
        peakResponseTime :=
          max s1.peakResponseTime (listMax (recentResponses.map (·.responseTime))) }
    else s1
  let recentErrors := windowErrors now st
  let s3 :=
    if recentRequests.length > 0 then
      { s2 with errorRate := (recentErrors.length : ℚ) / (recentRequests.length : ℚ) }
    else s2
  { st with trafficStats :=
    { s3 with
      peakRequestsPerSecond := max s3.peakRequestsPerSecond s3.requestsPerSecond,
      lastUpdated := now } }

/-- `TrafficMonitor.getCurrentStats`: recomputes the statistics and returns
the snapshot. -/
def getCurrentStats (now : ℤ) (st : MonState) : DAASR.TrafficStats :=
  (calculateStats now st).trafficStats

/-- `TrafficMonitor.calculateHealthStatus`: ordered threshold checks against
a `thresholds` object declared locally inside the function with constant
values (traffic volume first, then error rate, then latency; first match
wins). -/
def calculateHealthStatus (stats : DAASR.TrafficStats) : String :=
  if stats.requestsPerSecond > 100 then "high-load"
  else if stats.requestsPerSecond > 50 then "medium-load"
  else if stats.errorRate > 0.1 then "critical"
  else if stats.errorRate > 0.05 then "warning"
  else if stats.averageResponseTime > 1000 then "critical"
  else if stats.averageResponseTime > 500 then "warning"
  else "healthy"

/-- The threshold set that, per the spec, the health status should be
computed from ("thresholds are configuration, not constants"). -/
structure HealthThresholds where
  highTrafficThreshold : ℚ
  mediumTrafficThreshold : ℚ
  criticalErrorRate : ℚ
  warningErrorRate : ℚ
  criticalResponseTime : ℚ
  warningResponseTime : ℚ
  deriving DecidableEq

/-- Modelled from the spec: `healthStatus(stats)` as the spec describes it —
ordered threshold checks (traffic volume before error rate, error rate before
latency), first matching threshold wins, thresholds taken from the
configuration rather than hardcoded. -/
def healthStatusSpec (th : HealthThresholds) (stats : DAASR.TrafficStats) :
    String :=
  if stats.requestsPerSecond > th.highTrafficThreshold then "high-load"
  else if stats.requestsPerSecond > th.mediumTrafficThreshold then "medium-load"
  else if stats.errorRate > th.criticalErrorRate then "critical"
  else if stats.errorRate > th.warningErrorRate then "warning"
  else if stats.averageResponseTime > th.criticalResponseTime then "critical"
  else if stats.averageResponseTime > th.warningResponseTime then "warning"
  else "healthy"

/-- The constant thresholds hardcoded inside `calculateHealthStatus`. -/
def hardcodedThresholds : HealthThresholds :=
  { highTrafficThreshold := 100, mediumTrafficThreshold := 50,
    criticalErrorRate := 0.1, warningErrorRate := 0.05,
    criticalResponseTime := 1000, warningResponseTime := 500 }

/-- The configured threshold defaults of `src/config/default.js`
(`highTrafficThreshold` 1000, `mediumTrafficThreshold` 100, error-rate and
response-time thresholds as in the Joi schema). -/
def configDefaultThresholds : HealthThresholds :=
  { highTrafficThreshold := 1000, mediumTrafficThreshold := 100,
    criticalErrorRate := 0.1, warningErrorRate := 0.05,
    criticalResponseTime := 1000, warningResponseTime := 500 }

end TrafficMon

/-- The error rate computed by `calculateStats`: the in-window quotient when
the window holds at least one request, the previous value otherwise. -/
theorem calculateStats_errorRate (now : ℤ) (st : TrafficMon.MonState) :
    (TrafficMon.calculateStats now st).trafficStats.errorRate =
      if (TrafficMon.windowRequests now st).length > 0
      then ((TrafficMon.windowErrors now st).length : ℚ) /
        ((TrafficMon.windowRequests now st).length : ℚ)
      else st.trafficStats.errorRate := by
  simp only [TrafficMon.calculateStats]
  split_ifs with h1 h2 <;> simp_all

/-- A reachable monitor state whose 60-second window was fully populated at
time 0 (one request, one error) and whose statistics were computed then. -/
def staleMonState : TrafficMon.MonState :=
  TrafficMon.calculateStats 0 (TrafficMon.recordResponse 0 5 500 0 "boom"
    (TrafficMon.recordRequest 0 "192.0.2.1" "GET" "/x" "curl"
      (TrafficMon.initialState 0)))

/-- Claim C4 counterexample: in `staleMonState`, 120 seconds later the
60-second window holds no requests, yet `getCurrentStats` reports the stale
error rate `1`, not `0` as the claim asserts. -/
theorem trafficmon_error_rate_counterexample :
    (TrafficMon.windowRequests 120000 staleMonState).length = 0 ∧
    (TrafficMon.getCurrentStats 120000 staleMonState).errorRate = 1 ∧
    (1 : ℚ) ≠ 0 := by
  refine ⟨by decide, ?_, by norm_num⟩
  rw [TrafficMon.getCurrentStats, calculateStats_errorRate]
  have h : (TrafficMon.windowRequests 120000 staleMonState).length = 0 := by decide
  rw [if_neg (by simp [h])]
  rw [staleMonState, calculateStats_errorRate]
  norm_num [TrafficMon.windowRequests, TrafficMon.windowErrors,
    TrafficMon.recordResponse, TrafficMon.recordRequest, TrafficMon.initialState]

/-- Claim C4 (amended): whenever the last-60-seconds window holds at least one
request, the errorRate reported by `getCurrentStats` equals the number of
in-window error events divided by the number of in-window request events;
when the window holds no requests, the errorRate retains its previously
computed value (which is `0` only for a monitor that never computed a nonzero
rate) rather than resetting to `0`. -/
theorem trafficmon_error_rate (now : ℤ) (st : TrafficMon.MonState) :
    ((TrafficMon.windowRequests now st).length > 0 →
      (TrafficMon.getCurrentStats now st).errorRate =
        ((TrafficMon.windowErrors now st).length : ℚ) /
          ((TrafficMon.windowRequests now st).length : ℚ)) ∧
    ((TrafficMon.windowRequests now st).length = 0 →
      (TrafficMon.getCurrentStats now st).errorRate =
        st.trafficStats.errorRate) := by
  constructor
  · intro h
    rw [TrafficMon.getCurrentStats, calculateStats_errorRate, if_pos h]
  · intro h
    rw [TrafficMon.getCurrentStats, calculateStats_errorRate]
    simp [h]

/-- Witness for C4's amended theorem: both branches at concrete states. -/
theorem trafficmon_error_rate_witness :
    (TrafficMon.getCurrentStats 0 (TrafficMon.recordResponse 0 5 500 0 "boom"
      (TrafficMon.recordRequest 0 "192.0.2.1" "GET" "/x" "curl"
        (TrafficMon.initialState 0)))).errorRate =
      ((TrafficMon.windowErrors 0 (TrafficMon.recordResponse 0 5 500 0 "boom"
        (TrafficMon.recordRequest 0 "192.0.2.1" "GET" "/x" "curl"
          (TrafficMon.initialState 0)))).length : ℚ) /
      ((TrafficMon.windowRequests 0 (TrafficMon.recordResponse 0 5 500 0 "boom"
        (TrafficMon.recordRequest 0 "192.0.2.1" "GET" "/x" "curl"
          (TrafficMon.initialState 0)))).length : ℚ) ∧
    (TrafficMon.getCurrentStats 99999999 (TrafficMon.initialState 0)).errorRate =
      (TrafficMon.initialState 0).trafficStats.errorRate := by
  exact ⟨(trafficmon_error_rate 0 _).1 (by decide),
         (trafficmon_error_rate 99999999 _).2 (by decide)⟩

/-- A snapshot on which the hardcoded and the configured thresholds disagree:
500 requests/sec, no errors, no latency. -/
def stats500 : DAASR.TrafficStats :=
  { requestsPerSecond := 500, requestsPerMinute := 30000,
    averageResponseTime := 0, errorRate := 0, totalRequests := 30000,
    totalErrors := 0, peakRequestsPerSecond := 500, peakResponseTime := 0,
    lastUpdated := 0 }

/-- Claim C9 counterexample: at 500 requests/sec the code's
`calculateHealthStatus` answers `high-load` (hardcoded threshold 100), while
the ordered checks performed against the repository's configured threshold
defaults (`highTrafficThreshold` 1000, `mediumTrafficThreshold` 100 in
`src/config/default.js`) answer `medium-load` — so the thresholds the
function compares against are not taken from configuration. -/
theorem trafficmon_health_thresholds_counterexample :
    TrafficMon.calculateHealthStatus stats500 ≠
      TrafficMon.healthStatusSpec TrafficMon.configDefaultThresholds stats500 := by
  norm_num [TrafficMon.calculateHealthStatus, TrafficMon.healthStatusSpec,
    TrafficMon.configDefaultThresholds, stats500]
  decide

/-- Claim C9 (amended): the health-status function is a pure function of a
traffic snapshot into `{healthy, warning, critical, high-load, medium-load}`,
applying checks in order — traffic volume before error rate, error rate
before latency — with the first matching threshold determining the result;
but the thresholds it compares against are the hardcoded constants
(100, 50, 0.1, 0.05, 1000, 500), not configuration. -/
theorem trafficmon_health_status_hardcoded (stats : DAASR.TrafficStats) :
    TrafficMon.calculateHealthStatus stats =
      TrafficMon.healthStatusSpec TrafficMon.hardcodedThresholds stats ∧
    (TrafficMon.calculateHealthStatus stats = "healthy" ∨
     TrafficMon.calculateHealthStatus stats = "warning" ∨
     TrafficMon.calculateHealthStatus stats = "critical" ∨
     TrafficMon.calculateHealthStatus stats = "high-load" ∨
     TrafficMon.calculateHealthStatus stats = "medium-load") := by
  constructor
  · rfl
  · rw [TrafficMon.calculateHealthStatus]
    split_ifs <;> simp

namespace AlertSys

/-- An alert rule (`addRule` result, with the defaults applied).  The unused
placeholder fields of the source (`escalation: null`, `metadata: {}`) carry no
algorithmic content and are omitted. -/
structure Rule where
  id : String
  name : String
  description : String
  metric : String
  condition : String
  threshold : ℚ
  duration : ℤ
  severity : String
  enabled : Bool
  channels : List String
  suppressionTime : ℤ
  created : ℤ
  lastTriggered : Option ℤ
  triggerCount : ℕ
  deriving DecidableEq

/-- An active alert as created by `evaluateRule` (`this.activeAlerts` entry).
The source's `alert.rule` field aliases the rule object held in `this.rules`,
so it lives once in the enclosing state rather than inside the alert.
`lastNotification` is absent until the first successful trigger. -/
structure Alert where
  id : String
  ruleId : String
  startTime : ℤ
  lastUpdate : ℤ
  currentValue : ℚ
  state : String
  escalated : Bool
  notificationsSent : ℕ
  suppressedUntil : Option ℤ
  lastNotification : Option ℤ
  deriving DecidableEq

/-- An alert-history entry: the JS spread `{...alert, triggeredAt|resolvedAt,
type}` copies the alert's fields and adds a timestamp and a type tag; a
`triggered` entry has no `resolvedAt` and a `resolved` entry has no
`triggeredAt` (absent fields are `none`). -/
structure HistEntry where
  alert : Alert
  triggeredAt : Option ℤ
  resolvedAt : Option ℤ
  type : String
  deriving DecidableEq

/-- A notification channel (`this.channels` entry). -/
structure Channel where
  id : String
  type : String
  enabled : Bool
  lastUsed : Option ℤ
  messageCount : ℕ
  deriving DecidableEq

/-- A record of one `sendToChannel` invocation (a notification dispatch). -/
structure Dispatch where
  channelId : String
  alertId : String
  time : ℤ
  deriving DecidableEq

/-- The state the alerting system keeps for one rule: since
`this.activeAlerts` is keyed by the rule's id and `evaluateRule` touches only
its own rule's entry, we embed the slice for a single rule together with the
shared history, channel map and a log of dispatched notifications. -/
structure AlertState where
  rule : Rule
  activeAlert : Option Alert
  alertHistory : List HistEntry
  channels : List Channel
  dispatchLog : List Dispatch
  maxAlerts : ℕ
  deriving DecidableEq

/-- `AlertingSystem.evaluateCondition`: the pure comparison switch; an
unknown operator yields `false`. -/
def evaluateCondition (value : ℚ) (condition : String) (threshold : ℚ) : Bool :=
  if condition = "greater_than" then value > threshold
  else if condition = "less_than" then value < threshold
  else if condition = "equal_to" then value = threshold
  else if condition = "not_equal_to" then value ≠ threshold
  else if condition = "greater_than_or_equal" then value ≥ threshold
  else if condition = "less_than_or_equal" then value ≤ threshold
  else false

/-- `AlertingSystem.getMetricValue`: looks the path up in the simulated
metric table and applies the source's `simulated[metricPath] || null`
coercion, under which an unknown path — and also a value of exactly `0`,
which is falsy in JS — yields `null`. -/
def getMetricValue (simulated : String → Option ℚ) (metricPath : String) :
    Option ℚ :=
  match simulated metricPath with
  | none => none
  | some v => if v = 0 then none else some v

/-- The JS truthiness test `alert.suppressedUntil && now <
alert.suppressedUntil`: false when the field is absent or `0`. -/
def suppressedNow (suppressedUntil : Option ℤ) (now : ℤ) : Bool :=
  match suppressedUntil with
  | none => false
  | some s => s ≠ 0 ∧ now < s

/-- JS `Array.find` over the channel map by id (`this.channels.get`). -/
def channelFind (channelId : String) : List Channel → Option Channel
  | [] => none
  | c :: rest => if c.id = channelId then some c else channelFind channelId rest

/-- Marks a channel as used (`channel.lastUsed = Date.now();
channel.messageCount++`). -/
def markChannelUsed (now : ℤ) (channelId : String) (cs : List Channel) :
    List Channel :=
  cs.map (fun c =>
    if c.id = channelId
    then { c with lastUsed := some now, messageCount := c.messageCount + 1 }
    else c)

/-- The in-process channel types whose `sendToChannel` cannot fail (console
and log file); delivery over webhook/email is external I/O whose success is
not modelled, and the source updates a channel's usage counters only after a
successful send. -/
def channelDeliverable (c : Channel) : Bool :=
  c.type = "console" || c.type = "logfile"

/-- `AlertingSystem.sendNotifications`: for each channel id attached to the
rule, skip missing or disabled channels, invoke `sendToChannel` (recorded as
a `Dispatch`), and update the channel's usage counters on success.  Returns
the updated channel map and the dispatches performed. -/
def sendNotifications (now : ℤ) (alertId : String) (ruleChannels : List String)
    (cs : List Channel) : List Channel × List Dispatch :=
  ruleChannels.foldl
    (fun acc cid =>
      match channelFind cid acc.1 with
      | none => acc
      | some c =>
          if c.enabled then
            (if channelDeliverable c then markChannelUsed now cid acc.1 else acc.1,
             acc.2 ++ [{ channelId := cid, alertId := alertId, time := now }])
          else acc)
    (cs, [])

/-- `AlertingSystem.sendResolutionNotification`: the same fan-out loop, but
the source updates no channel usage counters on this path; only the
dispatches are recorded. -/
def resolutionDispatches (now : ℤ) (alertId : String)
    (ruleChannels : List String) (cs : List Channel) : List Dispatch :=
  ruleChannels.filterMap (fun cid =>
    match channelFind cid cs with
    | none => none
    | some c =>
        if c.enabled then some { channelId := cid, alertId := alertId, time := now }
        else none)

/-- `AlertingSystem.triggerAlert`: returns unchanged while the alert is
suppressed; otherwise updates the rule's `lastTriggered`/`triggerCount`,
appends a `triggered` history entry (a snapshot taken before
`notificationsSent` is incremented), sends the notifications, and updates the
alert's `notificationsSent`/`lastNotification`. -/
def triggerAlert (now : ℤ) (st : AlertState) : AlertState :=
  match st.activeAlert with
  | none => st
  | some alert =>
      if suppressedNow alert.suppressedUntil now then st
      else
        let sent := sendNotifications now alert.id st.rule.channels st.channels
        { st with
          rule := { st.rule with lastTriggered := some now,
                                 triggerCount := st.rule.triggerCount + 1 },
          alertHistory := st.alertHistory ++
            [{ alert := alert, triggeredAt := some now, resolvedAt := none,
               type := "triggered" }],
          channels := sent.1,
          dispatchLog := st.dispatchLog ++ sent.2,
          activeAlert := some
            { alert with notificationsSent := alert.notificationsSent + 1,
                         lastNotification := some now } }

/-- `AlertingSystem.resolveAlert`: appends a `resolved` history entry (which,
as in the source spread, carries no `triggeredAt`), removes the alert from
the active set, and sends the resolution notifications. -/
def resolveAlert (now : ℤ) (st : AlertState) : AlertState :=
  match st.activeAlert with
  | none => st
  | some alert =>
      { st with
        alertHistory := st.alertHistory ++
          [{ alert := alert, triggeredAt := none, resolvedAt := some now,
             type := "resolved" }],
        activeAlert := none,
        dispatchLog := st.dispatchLog ++
          resolutionDispatches now alert.id st.rule.channels st.channels }

/-- `AlertingSystem.evaluateRule`: returns immediately when the metric lookup
yields no value; otherwise evaluates the condition — when true, creates or
refreshes the active alert and triggers it once the sustain duration has
elapsed since `startTime`; when false, resolves any existing alert. -/
def evaluateRule (now : ℤ) (metricValue : Option ℚ) (st : AlertState) :
    AlertState :=
  match metricValue with
  | none => st
  | some v =>
      if evaluateCondition v st.rule.condition st.rule.threshold then
        let st1 :=
          match st.activeAlert with
          | none =>
              let newAlert : Alert :=
                { id := st.rule.id ++ "_" ++ toString now,
                  ruleId := st.rule.id, startTime := now, lastUpdate := now,
                  currentValue := v, state := st.rule.severity,
                  escalated := false, notificationsSent := 0,
                  suppressedUntil := none, lastNotification := none }
              { st with activeAlert := some newAlert }
          | some alert =>
              let updated : Alert :=
                { alert with lastUpdate := now, currentValue := v }
              { st with activeAlert := some updated }
        match st1.activeAlert with
        | some alert =>
            if now - alert.startTime ≥ st.rule.duration then triggerAlert now st1
            else st1
        | none => st1
      else
        match st.activeAlert with
        | none => st
        | some _ => resolveAlert now st

/-- The filter predicate of `AlertingSystem.cleanupResolvedAlerts`
(`alert.triggeredAt > cutoff`): an absent `triggeredAt`, as on `resolved`
entries, compares as `undefined > cutoff`, which is false in JS. -/
def keptByCleanup (cutoff : ℤ) (e : HistEntry) : Bool :=
  match e.triggeredAt with
  | some t => t > cutoff
  | none => false

/-- `AlertingSystem.cleanupResolvedAlerts` proper: filter by `keptByCleanup`,
then cap the history at `maxAlerts` keeping the newest entries.  JS
`slice(-0)` is `slice(0)`, so a `maxAlerts` of `0` truncates nothing. -/
def cleanupResolvedAlerts (now : ℤ) (st : AlertState) : AlertState :=
  let cutoff := now - 24 * 60 * 60 * 1000
  let kept := st.alertHistory.filter (keptByCleanup cutoff)
  { st with alertHistory :=
      if kept.length > st.maxAlerts then
        (if st.maxAlerts = 0 then kept else kept.drop (kept.length - st.maxAlerts))
      else kept }

/-- `AlertingSystem.suppressAlert`: finds the active alert with the given id
and sets its `suppressedUntil` to `now + duration`; returns whether an alert
was found. -/
def suppressAlert (now : ℤ) (alertId : String) (duration : ℤ)
    (st : AlertState) : AlertState × Bool :=
  match st.activeAlert with
  | some alert =>
      if alert.id = alertId then
        let suppressed : Alert :=
          { alert with suppressedUntil := some (now + duration) }
        ({ st with activeAlert := some suppressed }, true)
      else (st, false)
  | none => (st, false)

end AlertSys

/-- The default `high_cpu_usage` rule of `initializeDefaultRules` (threshold
80, sustain duration 60000 ms, `addRule` defaults applied). -/
def demoRule : AlertSys.Rule :=
  { id := "high_cpu_usage", name := "High CPU Usage",
    description := "CPU usage is above threshold", metric := "system.cpu.overall",
    condition := "greater_than", threshold := 80, duration := 60000,
    severity := "warning", enabled := true, channels := ["console", "logfile"],
    suppressionTime := 300000, created := 0, lastTriggered := none,
    triggerCount := 0 }

/-- An active alert for `demoRule` first observed at time 0. -/
def demoAlert : AlertSys.Alert :=
  { id := "high_cpu_usage_0", ruleId := "high_cpu_usage", startTime := 0,
    lastUpdate := 0, currentValue := 90, state := "warning", escalated := false,
    notificationsSent := 0, suppressedUntil := none, lastNotification := none }

/-- The default channels of `initializeDefaultChannels` (console and log
file). -/
def demoChannels : List AlertSys.Channel :=
  [{ id := "console", type := "console", enabled := true, lastUsed := none,
     messageCount := 0 },
   { id := "logfile", type := "logfile", enabled := true, lastUsed := none,
     messageCount := 0 }]

/-- An alerting state in which `demoAlert` is the pending alert for
`demoRule`. -/
def demoActiveState : AlertSys.AlertState :=
  { rule := demoRule, activeAlert := some demoAlert, alertHistory := [],
    channels := demoChannels, dispatchLog := [], maxAlerts := 1000 }

/-- Claim C3: for a rule with threshold 80 and sustain duration 60000 ms,
an evaluation with the condition true but `now` earlier than
`startTime + 60000` changes none of `triggerCount`, `lastTriggered`, the
dispatch log or the history (no trigger) and only refreshes the alert; an
evaluation at which the condition reads false removes the pending alert; and
a true reading with no pending alert creates one with a fresh
`startTime = now` (and no notifications sent), so no credit is carried
across a gap. -/
theorem alert_sustain_duration (st : AlertSys.AlertState) (now : ℤ) (v : ℚ)
    (_hth : st.rule.threshold = 80) (hdur : st.rule.duration = 60000) :
    (∀ a : AlertSys.Alert, st.activeAlert = some a →
      AlertSys.evaluateCondition v st.rule.condition st.rule.threshold = true →
      now < a.startTime + 60000 →
      (AlertSys.evaluateRule now (some v) st).rule.triggerCount =
          st.rule.triggerCount ∧
      (AlertSys.evaluateRule now (some v) st).rule.lastTriggered =
          st.rule.lastTriggered ∧
      (AlertSys.evaluateRule now (some v) st).dispatchLog = st.dispatchLog ∧
      (AlertSys.evaluateRule now (some v) st).alertHistory = st.alertHistory ∧
      (AlertSys.evaluateRule now (some v) st).activeAlert =
        some { a with lastUpdate := now, currentValue := v }) ∧
    (∀ a : AlertSys.Alert, st.activeAlert = some a →
      AlertSys.evaluateCondition v st.rule.condition st.rule.threshold = false →
      (AlertSys.evaluateRule now (some v) st).activeAlert = none) ∧
    (st.activeAlert = none →
      AlertSys.evaluateCondition v st.rule.condition st.rule.threshold = true →
      ∃ a', (AlertSys.evaluateRule now (some v) st).activeAlert = some a' ∧
        a'.startTime = now ∧ a'.notificationsSent = 0) := by
  refine ⟨?_, ?_, ?_⟩
  · intro a ha hcond hlt
    have hngte : ¬ (now - a.startTime ≥ st.rule.duration) := by omega
    simp [AlertSys.evaluateRule, ha, hcond, hngte]
  · intro a ha hcond
    simp [AlertSys.evaluateRule, ha, hcond, AlertSys.resolveAlert]
  · intro ha hcond
    have hpos : ¬ st.rule.duration ≤ 0 := by omega
    simp [AlertSys.evaluateRule, ha, hcond, hpos]

/-- Witness for C3: a condition-true evaluation 30 seconds into the pending
phase of `demoActiveState` triggers nothing and only refreshes the alert. -/
theorem alert_sustain_duration_witness :
    (AlertSys.evaluateRule 30000 (some 90) demoActiveState).alertHistory =
      demoActiveState.alertHistory ∧
    (AlertSys.evaluateRule 30000 (some 90) demoActiveState).activeAlert =
      some { demoAlert with lastUpdate := 30000, currentValue := 90 } := by
  have h := (alert_sustain_duration demoActiveState 30000 90 rfl rfl).1
    demoAlert rfl (by decide) (by decide)
  exact ⟨h.2.2.2.1, h.2.2.2.2⟩

/-- Claim C5 counterexample: with an unknown metric (lookup yields no value),
`evaluateRule` leaves the existing active alert of `demoActiveState` in the
active set — it is not resolved and removed as the claim asserts. -/
theorem alert_missing_metric_counterexample :
    AlertSys.getMetricValue (fun _ => none) "application.unknown" = none ∧
    (AlertSys.evaluateRule 30000 none demoActiveState).activeAlert =
      some demoAlert ∧
    some demoAlert ≠ (none : Option AlertSys.Alert) := by
  exact ⟨rfl, rfl, by simp⟩

/-- Claim C5 (amended): when a rule's metric lookup yields no value (unknown
metric, null/undefined), evaluating the rule never throws — `evaluateRule`
returns early with the state unchanged — so an existing active alert for that
rule is neither triggered nor resolved on that pass (rather than being
treated as condition-false and resolved). -/
theorem alert_missing_metric_noop :
    (∀ (simulated : String → Option ℚ) (metricPath : String),
      simulated metricPath = none →
      AlertSys.getMetricValue simulated metricPath = none) ∧
    (∀ (now : ℤ) (st : AlertSys.AlertState),
      AlertSys.evaluateRule now none st = st) := by
  constructor
  · intro simulated metricPath h
    simp [AlertSys.getMetricValue, h]
  · intro now st
    rfl

/-- Witness for C5's amended theorem at a concrete lookup and state. -/
theorem alert_missing_metric_noop_witness :
    AlertSys.getMetricValue (fun _ => none) "no.such.metric" = none ∧
    AlertSys.evaluateRule 42 none demoActiveState = demoActiveState := by
  exact ⟨alert_missing_metric_noop.1 (fun _ => none) "no.such.metric" rfl,
         alert_missing_metric_noop.2 42 demoActiveState⟩

/-- Claim C6 counterexample: resolving `demoAlert` at time 1000 appends a
resolution entry to the history, yet the cleanup pass one second later —
far less than 24 hours — removes it (the entry carries no `triggeredAt`, so
the cleanup filter drops it regardless of age). -/
theorem alert_history_resolution_counterexample :
    (AlertSys.resolveAlert 1000 demoActiveState).alertHistory ≠ [] ∧
    (AlertSys.cleanupResolvedAlerts 2000
      (AlertSys.resolveAlert 1000 demoActiveState)).alertHistory = [] := by
  constructor
  · simp [AlertSys.resolveAlert, demoActiveState]
  · rfl

/-- Claim C6 (amended): every history entry surviving a cleanup pass carries
a `triggeredAt` less than 24 hours old (so trigger-time entries are retained
until they are more than 24 hours old, while resolution entries — which carry
no `triggeredAt` — are removed by the next cleanup pass regardless of age);
the history length is capped at `maxAlerts` (when positive) with oldest-first
eviction (the result is a suffix of the filtered history); and absent
eviction every young trigger-time entry survives. -/
theorem alert_history_cleanup (now : ℤ) (st : AlertSys.AlertState) :
    (∀ e ∈ (AlertSys.cleanupResolvedAlerts now st).alertHistory,
      ∃ t, e.triggeredAt = some t ∧ t > now - 24 * 60 * 60 * 1000) ∧
    (0 < st.maxAlerts →
      (AlertSys.cleanupResolvedAlerts now st).alertHistory.length ≤ st.maxAlerts) ∧
    (AlertSys.cleanupResolvedAlerts now st).alertHistory.IsSuffix
      (st.alertHistory.filter
        (AlertSys.keptByCleanup (now - 24 * 60 * 60 * 1000))) ∧
    (st.alertHistory.length ≤ st.maxAlerts →
      ∀ e ∈ st.alertHistory, ∀ t, e.triggeredAt = some t →
        t > now - 24 * 60 * 60 * 1000 →
        e ∈ (AlertSys.cleanupResolvedAlerts now st).alertHistory) := by
  set kept := st.alertHistory.filter
    (AlertSys.keptByCleanup (now - 24 * 60 * 60 * 1000)) with hkept
  have hhist : (AlertSys.cleanupResolvedAlerts now st).alertHistory =
      if kept.length > st.maxAlerts then
        (if st.maxAlerts = 0 then kept else kept.drop (kept.length - st.maxAlerts))
      else kept := rfl
  refine ⟨?_, ?_, ?_, ?_⟩
  · intro e he
    rw [hhist] at he
    have hin : e ∈ kept := by
      by_cases h1 : kept.length > st.maxAlerts
      · by_cases h2 : st.maxAlerts = 0
        · simpa [h1, h2] using he
        · exact List.mem_of_mem_drop (by simpa [h1, h2] using he)
      · simpa [h1] using he
    have hp := List.of_mem_filter hin
    unfold AlertSys.keptByCleanup at hp
    rcases he2 : e.triggeredAt with _ | t
    · rw [he2] at hp; simp at hp
    · rw [he2] at hp; simp at hp; exact ⟨t, rfl, by exact_mod_cast hp⟩
  · intro hpos
    rw [hhist]
    by_cases h1 : kept.length > st.maxAlerts
    · have h2 : ¬ st.maxAlerts = 0 := by omega
      simp [h1, h2, List.length_drop]
      omega
    · simp [h1]
      omega
  · rw [hhist]
    by_cases h1 : kept.length > st.maxAlerts
    · by_cases h2 : st.maxAlerts = 0
      · simp [h1, h2]
      · simp [h1, h2]
        exact List.drop_suffix _ _
    · simp [h1]
  · intro hlen e he t het hgt
    have hmem : e ∈ kept := by
      rw [hkept]
      refine List.mem_filter.mpr ⟨he, ?_⟩
      unfold AlertSys.keptByCleanup
      rw [het]
      simpa using hgt
    have hkle : kept.length ≤ st.maxAlerts :=
      le_trans (List.length_filter_le _ _) hlen
    rw [hhist, if_neg (by omega)]
    exact hmem

/-- A trigger-time history entry recorded at time 1000. -/
def demoTrigEntry : AlertSys.HistEntry :=
  { alert := demoAlert, triggeredAt := some 1000, resolvedAt := none,
    type := "triggered" }

/-- An alerting state whose history holds the single entry `demoTrigEntry`. -/
def demoHistState : AlertSys.AlertState :=
  { rule := demoRule, activeAlert := none, alertHistory := [demoTrigEntry],
    channels := demoChannels, dispatchLog := [], maxAlerts := 1000 }

/-- Witness for C6's amended theorem: a second-old trigger-time entry
survives the cleanup pass. -/
theorem alert_history_cleanup_witness :
    demoTrigEntry ∈
      (AlertSys.cleanupResolvedAlerts 2000 demoHistState).alertHistory := by
  exact (alert_history_cleanup 2000 demoHistState).2.2.2 (by decide)
    demoTrigEntry (by simp [demoHistState]) 1000 rfl (by decide)

/-- Claim C7: suppressing the active alert at time `t` for duration `D` sets
`suppressedUntil = t + D`; any later condition-true evaluation at a time
`now < t + D` dispatches no notification (the dispatch log, history, and the
rule's trigger statistics are unchanged, and the alert's `notificationsSent`
stays as it was) even though the condition is still evaluated and the
alert's `lastUpdate`/`currentValue` are refreshed. -/
theorem alert_suppression (st : AlertSys.AlertState) (t D : ℤ)
    (a : AlertSys.Alert) (ha : st.activeAlert = some a) (ht : 0 ≤ t)
    (hD : 0 < D) :
    (AlertSys.suppressAlert t a.id D st).1.activeAlert =
      some { a with suppressedUntil := some (t + D) } ∧
    (∀ (now : ℤ) (v : ℚ), now < t + D →
      AlertSys.evaluateCondition v st.rule.condition st.rule.threshold = true →
      (AlertSys.evaluateRule now (some v)
        (AlertSys.suppressAlert t a.id D st).1).dispatchLog = st.dispatchLog ∧
      (AlertSys.evaluateRule now (some v)
        (AlertSys.suppressAlert t a.id D st).1).alertHistory = st.alertHistory ∧
      (AlertSys.evaluateRule now (some v)
        (AlertSys.suppressAlert t a.id D st).1).rule = st.rule ∧
      (AlertSys.evaluateRule now (some v)
        (AlertSys.suppressAlert t a.id D st).1).activeAlert =
        some { a with lastUpdate := now, currentValue := v,
                      suppressedUntil := some (t + D) }) := by
  have hsupp : (AlertSys.suppressAlert t a.id D st).1 =
      { st with activeAlert := some { a with suppressedUntil := some (t + D) } } := by
    simp [AlertSys.suppressAlert, ha]
  refine ⟨by rw [hsupp], ?_⟩
  intro now v hlt hcond
  rw [hsupp]
  have hsn : AlertSys.suppressedNow (some (t + D)) now = true := by
    simp [AlertSys.suppressedNow]
    omega
  by_cases hge : now - a.startTime ≥ st.rule.duration
  · simp [AlertSys.evaluateRule, hcond, hge, AlertSys.triggerAlert, hsn]
  · simp [AlertSys.evaluateRule, hcond, hge]

/-- Witness for C7: suppressing `demoAlert` at time 10000 for 300000 ms and
re-evaluating (condition true, past the sustain duration) at time 200000
dispatches nothing and leaves the rule untouched. -/
theorem alert_suppression_witness :
    (AlertSys.evaluateRule 200000 (some 90)
      (AlertSys.suppressAlert 10000 demoAlert.id 300000
        demoActiveState).1).dispatchLog = demoActiveState.dispatchLog ∧
    (AlertSys.evaluateRule 200000 (some 90)
      (AlertSys.suppressAlert 10000 demoAlert.id 300000
        demoActiveState).1).activeAlert =
      some { demoAlert with lastUpdate := 200000, currentValue := 90,
                            suppressedUntil := some (10000 + 300000) } := by
  have h := (alert_suppression demoActiveState 10000 300000 demoAlert rfl
    (by decide) (by decide)).2 200000 90 (by decide) (by decide)
  exact ⟨h.1, h.2.2.2⟩

/-- Claim C10 (implicit): once the sustain duration has elapsed, every
evaluation pass with the condition still true and the alert not suppressed
triggers again: the rule's `triggerCount` increments and `lastTriggered`
moves to `now`, another `triggered` entry (snapshotting the refreshed alert
before the increment) is appended to the history, the alert's
`notificationsSent` increments, and the notifications are dispatched again —
once per tick, not once at the Pending→Triggered transition. -/
theorem alert_retrigger_each_pass (st : AlertSys.AlertState) (now : ℤ) (v : ℚ)
    (a : AlertSys.Alert) (ha : st.activeAlert = some a)
    (hcond : AlertSys.evaluateCondition v st.rule.condition st.rule.threshold
      = true)
    (hdur : now - a.startTime ≥ st.rule.duration)
    (hsup : AlertSys.suppressedNow a.suppressedUntil now = false) :
    (AlertSys.evaluateRule now (some v) st).rule.triggerCount =
        st.rule.triggerCount + 1 ∧
    (AlertSys.evaluateRule now (some v) st).rule.lastTriggered = some now ∧
    (AlertSys.evaluateRule now (some v) st).alertHistory = st.alertHistory ++
      [{ alert := { a with lastUpdate := now, currentValue := v },
         triggeredAt := some now, resolvedAt := none, type := "triggered" }] ∧
    (AlertSys.evaluateRule now (some v) st).activeAlert =
      some { a with lastUpdate := now, currentValue := v,
                    notificationsSent := a.notificationsSent + 1,
                    lastNotification := some now } ∧
    (AlertSys.evaluateRule now (some v) st).dispatchLog = st.dispatchLog ++
      (AlertSys.sendNotifications now a.id st.rule.channels st.channels).2 := by
  simp [AlertSys.evaluateRule, ha, hcond, hdur, AlertSys.triggerAlert, hsup]

/-- Witness for C10: a pass at 70 seconds (10 seconds past the sustain
duration of `demoRule`) re-triggers `demoAlert` and re-dispatches. -/
theorem alert_retrigger_each_pass_witness :
    (AlertSys.evaluateRule 70000 (some 95) demoActiveState).rule.triggerCount =
      demoActiveState.rule.triggerCount + 1 ∧
    (AlertSys.evaluateRule 70000 (some 95) demoActiveState).dispatchLog =
      demoActiveState.dispatchLog ++
        (AlertSys.sendNotifications 70000 demoAlert.id
          demoActiveState.rule.channels demoActiveState.channels).2 := by
  have h := alert_retrigger_each_pass demoActiveState 70000 95 demoAlert rfl
    (by decide) (by decide) rfl
  exact ⟨h.1, h.2.2.2.2⟩
